import Mathlib

/-!
Verification of the Task Master MCP server (`task_master_server.py`).

The server exposes five CRUD handlers over an in-memory dictionary of task
records, behind HTTP Basic authentication and a function-name router.  We
give a shallow embedding: JSON scalar values are `JVal`, a parameter bag is
an association list `Params`, the task store is an association list
`Store` with Python-dict semantics (lookup, insert-or-replace keeping
position, pop), and each handler is a pure function from a parameter bag
and a store to a response payload together with the store after the call.
The nondeterministic inputs of `handle_create_task` (the random uuid token
and the current time) are passed as explicit parameters.
-/

set_option autoImplicit false

namespace TaskMaster

/-- Scalar JSON value as decoded by `json.loads`: null, boolean, integer or
string.  These are the value shapes the handlers' logic distinguishes;
`pyTruthy` is Python truthiness and `pyStr` is Python `str()` on them. -/
inductive JVal where
  | null : JVal
  | bool (b : Bool) : JVal
  | int (n : Int) : JVal
  | str (s : String) : JVal
deriving DecidableEq, Repr

/-- Python truthiness of a scalar value: `None`, `False`, `0` and `""` are
falsy, everything else is truthy (used by `if not task_id:` etc.). -/
def pyTruthy : JVal → Bool
  | JVal.null => false
  | JVal.bool b => b
  | JVal.int n => n != 0
  | JVal.str s => s != ""

/-- Python `str()` of a scalar value, as interpolated by the f-strings in
the not-found error messages. -/
def pyStr : JVal → String
  | JVal.null => "None"
  | JVal.bool true => "True"
  | JVal.bool false => "False"
  | JVal.int n => toString n
  | JVal.str s => s

/-- A task record: the dictionary built by `handle_create_task` and the two
seed records.  `id` and `created_at` are always strings (they are written
only at creation); the other five fields hold whatever JSON value the
client supplied. -/
structure Task where
  id : String
  title : JVal
  description : JVal
  status : JVal
  priority : JVal
  created_at : String
  due_date : JVal
deriving DecidableEq, Repr

/-- A JSON-object parameter bag (`parameters : Dict[str, Any]`). -/
abbrev Params : Type := List (String × JVal)

/-- The in-memory task store `tasks : Dict[str, Task]`, as an association
list in insertion order (Python dicts preserve insertion order; a dict has
no duplicate keys, which reachable stores satisfy, see `StoreOk`). -/
abbrev Store : Type := List (String × Task)

/-- Dictionary lookup on an association list: the value at the first
matching key (a Python dict has at most one). -/
def alookup {β : Type} (key : String) : List (String × β) → Option β
  | [] => none
  | (k, v) :: rest => if k = key then some v else alookup key rest

/-- Dictionary assignment `d[key] = v`: replace the value at an existing
key in place, or append a new binding at the end. -/
def aset {β : Type} (key : String) (v : β) : List (String × β) → List (String × β)
  | [] => [(key, v)]
  | (k, w) :: rest => if k = key then (key, v) :: rest else (k, w) :: aset key v rest

/-- Dictionary removal `d.pop(key)`: drop the first binding of `key`. -/
def apop {β : Type} (key : String) : List (String × β) → List (String × β)
  | [] => []
  | (k, w) :: rest => if k = key then rest else (k, w) :: apop key rest

/-- Python `parameters.get(key)`: the bound value, or `None` when absent. -/
def dget (parameters : Params) (key : String) : JVal :=
  (alookup key parameters).getD JVal.null

/-- Python `parameters.get(key, default)`. -/
def dgetD (parameters : Params) (key : String) (d : JVal) : JVal :=
  (alookup key parameters).getD d

/-- Store lookup `tasks.get(task_id)` where `task_id` is an arbitrary JSON
value: a non-string key never matches a string-keyed dict. -/
def vlookup (tasks : Store) : JVal → Option Task
  | JVal.str k => alookup k tasks
  | _ => none

/-- Store write `tasks[task_id] = t` at a `task_id` that was found by
`vlookup` (hence a string; the catch-all branch is unreachable). -/
def vset (tasks : Store) (task_id : JVal) (t : Task) : Store :=
  match task_id with
  | JVal.str k => aset k t tasks
  | _ => tasks

/-- Store removal `tasks.pop(task_id)` at a `task_id` that was found in the
store (hence a string; the catch-all branch is unreachable). -/
def vpop (tasks : Store) (task_id : JVal) : Store :=
  match task_id with
  | JVal.str k => apop k tasks
  | _ => tasks

/-- Keys of a store have no duplicates — the defining property of a Python
dict, which every reachable store satisfies. -/
abbrev StoreOk (tasks : Store) : Prop := (tasks.map Prod.fst).Nodup

/-- The two seed records the store is initialized with. -/
def initialTasks : Store :=
  [("task-001",
    { id := "task-001",
      title := JVal.str "Implement MCP server",
      description := JVal.str "Create a working MCP server implementation",
      status := JVal.str "in_progress",
      priority := JVal.str "high",
      created_at := "2025-04-24T12:00:00Z",
      due_date := JVal.str "2025-04-26T12:00:00Z" }),
   ("task-002",
    { id := "task-002",
      title := JVal.str "Test relay proxy",
      description := JVal.str "Test the relay proxy with the MCP server",
      status := JVal.str "pending",
      priority := JVal.str "medium",
      created_at := "2025-04-24T12:30:00Z",
      due_date := JVal.str "2025-04-27T12:00:00Z" })]

/-- Response payloads the server can return, one constructor per dictionary
shape built in the source: `{"tasks": [...]}`, `{"task": t}`,
`{"task": t, "task_id": id}`, `{"success": True, "deleted_task": t}`,
`{"error": msg}` and the 401 body `{"detail": msg}`. -/
inductive Payload where
  | tasks (ts : List Task) : Payload
  | task (t : Task) : Payload
  | created (t : Task) (task_id : String) : Payload
  | deleted (t : Task) : Payload
  | err (msg : String) : Payload
  | detail (msg : String) : Payload
deriving DecidableEq, Repr

/-- Handler `handle_list_tasks`: `{"tasks": list(tasks.values())}`; the
parameter bag is ignored and the store is untouched. -/
def handle_list_tasks (_parameters : Params) (tasks : Store) : Payload × Store :=
  (Payload.tasks (tasks.map Prod.snd), tasks)

/-- Handler `handle_get_task`.  A stored task dictionary always has seven
keys, hence is truthy, so the source's `if not task:` test is exactly the
`none` case of the lookup. -/
def handle_get_task (parameters : Params) (tasks : Store) : Payload × Store :=
  let task_id := dget parameters "task_id"
  if pyTruthy task_id = false then
    (Payload.err "task_id parameter is required", tasks)
  else
    match vlookup tasks task_id with
    | none => (Payload.err ("Task with ID " ++ pyStr task_id ++ " not found"), tasks)
    | some task => (Payload.task task, tasks)

/-- Handler `handle_create_task`.  `uuidToken` models
`str(uuid.uuid4())[:8]` and `now` models `datetime.now().isoformat()`.
The insertion `tasks[task_id] = task` is unconditional: no collision check
is performed on the generated id. -/
def handle_create_task (parameters : Params) (uuidToken now : String)
    (tasks : Store) : Payload × Store :=
  let title := dget parameters "title"
  if pyTruthy title = false then
    (Payload.err "title parameter is required", tasks)
  else
    let description := dgetD parameters "description" (JVal.str "")
    let priority := dgetD parameters "priority" (JVal.str "medium")
    let due_date := dget parameters "due_date"
    let task_id := "task-" ++ uuidToken
    let task : Task :=
      { id := task_id,
        title := title,
        description := description,
        status := JVal.str "pending",
        priority := priority,
        created_at := now,
        due_date := due_date }
    (Payload.created task task_id, aset task_id task tasks)

/-- The field-overwrite loop of `handle_update_task`, unrolled: for each of
the five whitelisted field names, if the key is present in the bag the
stored value is overwritten.  `id` and `created_at` are not in the list. -/
def applyUpdates (t : Task) (parameters : Params) : Task :=
  let t1 := match alookup "title" parameters with
    | some v => { t with title := v }
    | none => t
  let t2 := match alookup "description" parameters with
    | some v => { t1 with description := v }
    | none => t1
  let t3 := match alookup "status" parameters with
    | some v => { t2 with status := v }
    | none => t2
  let t4 := match alookup "priority" parameters with
    | some v => { t3 with priority := v }
    | none => t3
  match alookup "due_date" parameters with
    | some v => { t4 with due_date := v }
    | none => t4

/-- Handler `handle_update_task`.  The source mutates the looked-up record
in place; here the store is rewritten at the same key. -/
def handle_update_task (parameters : Params) (tasks : Store) : Payload × Store :=
  let task_id := dget parameters "task_id"
  if pyTruthy task_id = false then
    (Payload.err "task_id parameter is required", tasks)
  else
    match vlookup tasks task_id with
    | none => (Payload.err ("Task with ID " ++ pyStr task_id ++ " not found"), tasks)
    | some task =>
      let task2 := applyUpdates task parameters
      (Payload.task task2, vset tasks task_id task2)

/-- Handler `handle_delete_task`: membership test, then
`tasks.pop(task_id)` returning the removed record. -/
def handle_delete_task (parameters : Params) (tasks : Store) : Payload × Store :=
  let task_id := dget parameters "task_id"
  if pyTruthy task_id = false then
    (Payload.err "task_id parameter is required", tasks)
  else
    match vlookup tasks task_id with
    | none => (Payload.err ("Task with ID " ++ pyStr task_id ++ " not found"), tasks)
    | some deleted_task => (Payload.deleted deleted_task, vpop tasks task_id)

/-- Keys of `handler_map`, in declaration order. -/
def handlerNames : List String :=
  ["list_tasks", "get_task", "create_task", "update_task", "delete_task"]

/-- Dispatch `handler_map[function_name](parameters)` for a recognized
function name and an object parameter bag. -/
def callHandler (function_name : String) (parameters : Params)
    (uuidToken now : String) (tasks : Store) : Payload × Store :=
  if function_name = "list_tasks" then handle_list_tasks parameters tasks
  else if function_name = "get_task" then handle_get_task parameters tasks
  else if function_name = "create_task" then handle_create_task parameters uuidToken now tasks
  else if function_name = "update_task" then handle_update_task parameters tasks
  else handle_delete_task parameters tasks

/-- Outcome of `json.loads` on the request body: a syntax failure, a valid
JSON value that is not an object (`typeName` is the Python type name of the
parsed value), or an object giving the parameter bag. -/
inductive ReqBody where
  | malformed : ReqBody
  | nonDict (typeName : String) : ReqBody
  | obj (parameters : Params) : ReqBody

/-- Body of the `try` block of `handle_mcp_request` after authentication:
parse the body, reject unsupported function names, call the handler; a
`json.JSONDecodeError` and any other exception are caught and turned into
an error payload.  Calling a handler other than `handle_list_tasks` on a
non-dict raises `AttributeError` at `parameters.get`, caught by the generic
`except`; `handle_list_tasks` never touches its parameters and succeeds. -/
def dispatch (function_name : String) (body : ReqBody) (uuidToken now : String)
    (tasks : Store) : Payload × Store :=
  match body with
  | ReqBody.malformed => (Payload.err "Invalid JSON in request body", tasks)
  | ReqBody.nonDict typeName =>
    if function_name ∈ handlerNames then
      if function_name = "list_tasks" then
        handle_list_tasks [] tasks
      else
        (Payload.err ("'" ++ typeName ++ "' object has no attribute 'get'"), tasks)
    else
      (Payload.err ("Function " ++ function_name ++ " not supported"), tasks)
  | ReqBody.obj parameters =>
    if function_name ∈ handlerNames then
      callHandler function_name parameters uuidToken now tasks
    else
      (Payload.err ("Function " ++ function_name ++ " not supported"), tasks)

/-- Fixed Basic-Auth credentials. -/
def USERNAME : String := "instabids"

/-- Fixed Basic-Auth password. -/
def PASSWORD : String := "secure123password"

/-- `verify_credentials`: both `secrets.compare_digest` calls decide string
equality (their timing behavior is outside this embedding). -/
def verify_credentials (username password : String) : Bool :=
  (username == USERNAME) && (password == PASSWORD)

/-- An HTTP response: status code, optional `WWW-Authenticate` header and
JSON body. -/
structure HttpResponse where
  status : Nat
  wwwAuthenticate : Option String
  body : Payload
deriving DecidableEq, Repr

/-- Endpoint `POST /mcp/{function_name}`: the `verify_credentials`
dependency runs first; on failure FastAPI returns 401 with the
`WWW-Authenticate: Basic` header and `{"detail": "Invalid credentials"}`
and the handler body never runs; on success the dispatch result is
returned with status 200. -/
def handle_mcp_request (username password function_name : String) (body : ReqBody)
    (uuidToken now : String) (tasks : Store) : HttpResponse × Store :=
  if verify_credentials username password then
    let r := dispatch function_name body uuidToken now tasks
    ({ status := 200, wwwAuthenticate := none, body := r.1 }, r.2)
  else
    ({ status := 401, wwwAuthenticate := some "Basic",
       body := Payload.detail "Invalid credentials" }, tasks)

/-- One client-visible operation against the store, for reasoning about
arbitrary call sequences; `createOp` carries the create call's uuid token
and timestamp. -/
inductive Op where
  | listOp (p : Params) : Op
  | getOp (p : Params) : Op
  | createOp (p : Params) (uuidToken now : String) : Op
  | updateOp (p : Params) : Op
  | deleteOp (p : Params) : Op

/-- The store after one handler call. -/
def stepStore (tasks : Store) : Op → Store
  | Op.listOp p => (handle_list_tasks p tasks).2
  | Op.getOp p => (handle_get_task p tasks).2
  | Op.createOp p u n => (handle_create_task p u n tasks).2
  | Op.updateOp p => (handle_update_task p tasks).2
  | Op.deleteOp p => (handle_delete_task p tasks).2

/-- The store after a finite sequence of handler calls. -/
def runOps (tasks : Store) (ops : List Op) : Store :=
  ops.foldl stepStore tasks

/-- Every binding of the store maps a key to a record whose `id` field is
that key. -/
def IdKeyInv (tasks : Store) : Prop :=
  ∀ k t, (k, t) ∈ tasks → t.id = k

/-! ### Association-list lemmas -/

theorem alookup_aset_self {β : Type} (key : String) (v : β) (l : List (String × β)) :
    alookup key (aset key v l) = some v := by
  induction l with
  | nil => simp [aset, alookup]
  | cons hd tl ih =>
    obtain ⟨k, w⟩ := hd
    by_cases h : k = key
    · simp [aset, h, alookup]
    · simp [aset, h, alookup, ih]

theorem mem_aset {β : Type} {key : String} {v : β} {l : List (String × β)}
    {q : String × β} (hq : q ∈ aset key v l) : q = (key, v) ∨ q ∈ l := by
  induction l with
  | nil =>
    simp only [aset, List.mem_singleton] at hq
    exact Or.inl hq
  | cons hd tl ih =>
    obtain ⟨k, w⟩ := hd
    by_cases h : k = key
    · simp only [aset, if_pos h, List.mem_cons] at hq
      rcases hq with hq | hq
      · exact Or.inl hq
      · exact Or.inr (List.mem_cons_of_mem _ hq)
    · simp only [aset, if_neg h, List.mem_cons] at hq
      rcases hq with hq | hq
      · exact Or.inr (by simp [hq])
      · rcases ih hq with hq' | hq'
        · exact Or.inl hq'
        · exact Or.inr (List.mem_cons_of_mem _ hq')

theorem mem_apop {β : Type} {key : String} {l : List (String × β)}
    {q : String × β} (hq : q ∈ apop key l) : q ∈ l := by
  induction l with
  | nil => simp [apop] at hq
  | cons hd tl ih =>
    obtain ⟨k, w⟩ := hd
    by_cases h : k = key
    · simp only [apop, if_pos h] at hq
      exact List.mem_cons_of_mem _ hq
    · simp only [apop, if_neg h, List.mem_cons] at hq
      rcases hq with hq | hq
      · simp [hq]
      · exact List.mem_cons_of_mem _ (ih hq)

theorem alookup_mem {β : Type} {key : String} {v : β} {l : List (String × β)}
    (h : alookup key l = some v) : (key, v) ∈ l := by
  induction l with
  | nil => simp [alookup] at h
  | cons hd tl ih =>
    obtain ⟨k, w⟩ := hd
    simp only [alookup] at h
    by_cases hk : k = key
    · rw [if_pos hk] at h
      cases h
      subst hk
      exact List.mem_cons_self _ _
    · rw [if_neg hk] at h
      exact List.mem_cons_of_mem _ (ih h)

theorem alookup_eq_none_of_not_mem {β : Type} {key : String} {l : List (String × β)}
    (h : key ∉ l.map Prod.fst) : alookup key l = none := by
  induction l with
  | nil => rfl
  | cons hd tl ih =>
    obtain ⟨k, w⟩ := hd
    simp only [List.map_cons, List.mem_cons] at h
    push_neg at h
    have hk : k ≠ key := fun hh => h.1 hh.symm
    simp only [alookup, if_neg hk]
    exact ih h.2

theorem alookup_apop_self {β : Type} {key : String} {l : List (String × β)}
    (hnd : (l.map Prod.fst).Nodup) : alookup key (apop key l) = none := by
  induction l with
  | nil => rfl
  | cons hd tl ih =>
    obtain ⟨k, w⟩ := hd
    simp only [List.map_cons, List.nodup_cons] at hnd
    by_cases h : k = key
    · subst h
      simp only [apop, if_pos rfl]
      exact alookup_eq_none_of_not_mem hnd.1
    · simp only [apop, if_neg h, alookup, if_neg h]
      exact ih hnd.2

/-! ### Basic handler-shape lemmas -/

theorem handle_get_task_snd (parameters : Params) (tasks : Store) :
    (handle_get_task parameters tasks).2 = tasks := by
  unfold handle_get_task
  dsimp only
  split
  · rfl
  · split <;> rfl

theorem applyUpdates_id (t : Task) (parameters : Params) :
    (applyUpdates t parameters).id = t.id := by
  unfold applyUpdates
  cases alookup "title" parameters <;>
    cases alookup "description" parameters <;>
    cases alookup "status" parameters <;>
    cases alookup "priority" parameters <;>
    cases alookup "due_date" parameters <;> rfl

theorem applyUpdates_created_at (t : Task) (parameters : Params) :
    (applyUpdates t parameters).created_at = t.created_at := by
  unfold applyUpdates
  cases alookup "title" parameters <;>
    cases alookup "description" parameters <;>
    cases alookup "status" parameters <;>
    cases alookup "priority" parameters <;>
    cases alookup "due_date" parameters <;> rfl

/-! ### Preservation of the id-equals-key invariant -/

theorem idKeyInv_stepStore (s : Store) (op : Op) (h : IdKeyInv s) :
    IdKeyInv (stepStore s op) := by
  cases op with
  | listOp p => exact h
  | getOp p =>
    rw [stepStore, handle_get_task_snd]
    exact h
  | createOp p u n =>
    rw [stepStore]
    unfold handle_create_task
    dsimp only
    split
    · exact h
    · intro k t hmem
      rcases mem_aset hmem with heq | hmem'
      · cases heq
        rfl
      · exact h k t hmem'
  | updateOp p =>
    rw [stepStore]
    unfold handle_update_task
    dsimp only
    split
    · exact h
    · split
      · exact h
      · rename_i task heq
        intro k t hmem
        revert heq hmem
        cases htid : dget p "task_id" with
        | str key =>
          intro heq hmem
          simp only [vlookup] at heq
          simp only [vset] at hmem
          rcases mem_aset hmem with heq' | hmem'
          · cases heq'
            rw [applyUpdates_id]
            exact h _ task (alookup_mem heq)
          · exact h k t hmem'
        | null => intro heq _; simp [vlookup] at heq
        | bool b => intro heq _; simp [vlookup] at heq
        | int n => intro heq _; simp [vlookup] at heq
  | deleteOp p =>
    rw [stepStore]
    unfold handle_delete_task
    dsimp only
    split
    · exact h
    · split
      · exact h
      · intro k t hmem
        cases htid : dget p "task_id" with
        | str key =>
          rw [htid] at hmem
          simp only [vpop] at hmem
          exact h k t (mem_apop hmem)
        | null => rw [htid] at hmem; exact h k t hmem
        | bool b => rw [htid] at hmem; exact h k t hmem
        | int n => rw [htid] at hmem; exact h k t hmem

theorem runOps_idKeyInv (ops : List Op) :
    ∀ s : Store, IdKeyInv s → IdKeyInv (runOps s ops) := by
  induction ops with
  | nil => intro s h; exact h
  | cons op rest ih => intro s h; exact ih _ (idKeyInv_stepStore s op h)

theorem idKeyInv_initial : IdKeyInv initialTasks := by
  intro k t hmem
  simp only [initialTasks, List.mem_cons, List.not_mem_nil, or_false] at hmem
  rcases hmem with h1 | h1 <;> (cases h1; rfl)

theorem task_prefix_ne_empty (u : String) : "task-" ++ u ≠ "" := by
  intro hcontra
  have hlen := congrArg String.length hcontra
  rw [String.length_append] at hlen
  have h5 : (5 : Nat) + u.length = 0 := hlen
  omega

theorem dget_singleton (key : String) (v : JVal) : dget [(key, v)] key = v := by
  simp [dget, alookup]

/-! ### Claims -/

/-- C8: in the initial seed store and after any finite sequence of calls to
the five handlers, every key of the task store maps to a record whose `id`
field equals that key. -/
theorem c8_id_equals_key_invariant (ops : List Op) :
    IdKeyInv (runOps initialTasks ops) :=
  runOps_idKeyInv ops initialTasks idKeyInv_initial

/-- C9: whenever any of the five handlers returns an error payload the
store after the call equals the store before it, and the list and get
handlers never mutate the store on any input. -/
theorem c9_error_leaves_store_unchanged (s : Store) (p : Params) (uuidToken now : String) :
    (handle_list_tasks p s).2 = s ∧
    (handle_get_task p s).2 = s ∧
    (∀ m, (handle_create_task p uuidToken now s).1 = Payload.err m →
      (handle_create_task p uuidToken now s).2 = s) ∧
    (∀ m, (handle_update_task p s).1 = Payload.err m → (handle_update_task p s).2 = s) ∧
    (∀ m, (handle_delete_task p s).1 = Payload.err m → (handle_delete_task p s).2 = s) := by
  refine ⟨rfl, handle_get_task_snd p s, ?_, ?_, ?_⟩
  · intro m hm
    unfold handle_create_task at hm ⊢
    dsimp only at hm ⊢
    split at hm
    · rename_i hc
      rw [if_pos hc]
    · simp at hm
  · intro m hm
    unfold handle_update_task at hm ⊢
    dsimp only at hm ⊢
    split at hm
    · rename_i hc
      rw [if_pos hc]
    · rename_i hc
      rw [if_neg hc]
      split at hm
      · rfl
      · simp at hm
  · intro m hm
    unfold handle_delete_task at hm ⊢
    dsimp only at hm ⊢
    split at hm
    · rename_i hc
      rw [if_pos hc]
    · rename_i hc
      rw [if_neg hc]
      split at hm
      · rfl
      · simp at hm

/-- C9 witness: a failing create (missing title) leaves the seed store
unchanged. -/
theorem c9_witness : (handle_create_task [] "aaaaaaaa" "T0" initialTasks).2 = initialTasks :=
  (c9_error_leaves_store_unchanged initialTasks [] "aaaaaaaa" "T0").2.2.1
    "title parameter is required" (by decide)

/-- C10: a `task_id` key that is present in the parameter bag with a falsy
value is reported by the get, update and delete handlers with the
missing-parameter error, which is not a not-found error. -/
theorem c10_falsy_task_id_is_param_error (s : Store) (p : Params) (v : JVal)
    (hv : alookup "task_id" p = some v) (hf : pyTruthy v = false) :
    (handle_get_task p s).1 = Payload.err "task_id parameter is required" ∧
    (handle_update_task p s).1 = Payload.err "task_id parameter is required" ∧
    (handle_delete_task p s).1 = Payload.err "task_id parameter is required" ∧
    Payload.err "task_id parameter is required" ≠
      Payload.err ("Task with ID " ++ pyStr v ++ " not found") := by
  have hd : dget p "task_id" = v := by rw [dget, hv]; rfl
  have hff : pyTruthy (dget p "task_id") = false := by rw [hd]; exact hf
  refine ⟨?_, ?_, ?_, ?_⟩
  · unfold handle_get_task
    dsimp only
    rw [if_pos hff]
  · unfold handle_update_task
    dsimp only
    rw [if_pos hff]
  · unfold handle_delete_task
    dsimp only
    rw [if_pos hff]
  · cases v with
    | null => decide
    | bool b =>
      have hb : b = false := by simpa [pyTruthy] using hf
      subst hb
      decide
    | int n =>
      have hn : n = 0 := by simpa [pyTruthy] using hf
      subst hn
      decide
    | str s' =>
      have hs : s' = "" := by simpa [pyTruthy] using hf
      subst hs
      decide

/-- C10 witness: the empty-string `task_id` on the seed store. -/
theorem c10_witness :
    (handle_get_task [("task_id", JVal.str "")] initialTasks).1 =
      Payload.err "task_id parameter is required" :=
  (c10_falsy_task_id_is_param_error initialTasks [("task_id", JVal.str "")]
    (JVal.str "") (by decide) (by decide)).1

/-- C5: a request is routed to a handler iff the supplied username and
password equal the fixed configured pair; any other pair yields status 401
with the `WWW-Authenticate: Basic` header, an unchanged store, and no
handler runs, whatever operation was targeted. -/
theorem c5_basic_auth_gate (username password function_name : String) (body : ReqBody)
    (uuidToken now : String) (s : Store) :
    ((username = USERNAME ∧ password = PASSWORD) →
      handle_mcp_request username password function_name body uuidToken now s =
        ({ status := 200, wwwAuthenticate := none,
           body := (dispatch function_name body uuidToken now s).1 },
         (dispatch function_name body uuidToken now s).2)) ∧
    (¬(username = USERNAME ∧ password = PASSWORD) →
      handle_mcp_request username password function_name body uuidToken now s =
        ({ status := 401, wwwAuthenticate := some "Basic",
           body := Payload.detail "Invalid credentials" }, s)) := by
  constructor
  · rintro ⟨h1, h2⟩
    subst h1
    subst h2
    rfl
  · intro hno
    have hb : verify_credentials username password = false := by
      cases h : verify_credentials username password with
      | false => rfl
      | true =>
        exact absurd (by simpa [verify_credentials, Bool.and_eq_true, beq_iff_eq] using h) hno
    simp [handle_mcp_request, hb]

/-- C5 witness: a one-character password deviation is rejected with 401. -/
theorem c5_witness :
    handle_mcp_request "instabids" "secure123passworD" "list_tasks" (ReqBody.obj [])
        "u" "n" initialTasks =
      ({ status := 401, wwwAuthenticate := some "Basic",
         body := Payload.detail "Invalid credentials" }, initialTasks) :=
  (c5_basic_auth_gate "instabids" "secure123passworD" "list_tasks" (ReqBody.obj [])
    "u" "n" initialTasks).2 (by decide)

/-- C7: an authenticated POST to a function name outside the five
recognized operations returns the unsupported-function error payload with
status 200 and leaves the store unchanged (no handler is invoked). -/
theorem c7_unsupported_function_name (function_name : String) (ps : Params)
    (uuidToken now : String) (s : Store)
    (h : function_name ∉ handlerNames) :
    handle_mcp_request USERNAME PASSWORD function_name (ReqBody.obj ps) uuidToken now s =
      ({ status := 200, wwwAuthenticate := none,
         body := Payload.err ("Function " ++ function_name ++ " not supported") }, s) := by
  have hm : handle_mcp_request USERNAME PASSWORD function_name (ReqBody.obj ps) uuidToken now s =
      ({ status := 200, wwwAuthenticate := none,
         body := (dispatch function_name (ReqBody.obj ps) uuidToken now s).1 },
       (dispatch function_name (ReqBody.obj ps) uuidToken now s).2) := rfl
  rw [hm]
  unfold dispatch
  dsimp only
  rw [if_neg h]

/-- C7 witness: the unknown function name of the spec scenario. -/
theorem c7_witness :
    handle_mcp_request USERNAME PASSWORD "unknown_fn" (ReqBody.obj []) "u" "n" initialTasks =
      ({ status := 200, wwwAuthenticate := none,
         body := Payload.err "Function unknown_fn not supported" }, initialTasks) :=
  c7_unsupported_function_name "unknown_fn" [] "u" "n" initialTasks (by decide)

/-- C1 counterexample: the insertion performed by `handle_create_task` has
no collision check, so when the random token repeats the one already used
by a stored task, the create call is valid (non-empty title) yet the
returned id equals a key that was present in the store before the call. -/
theorem c1_counterexample :
    pyTruthy (dget [("title", JVal.str "x")] "title") = true ∧
    (handle_create_task [("title", JVal.str "x")] "aaaaaaaa" "2025-01-02T00:00:00"
        ((handle_create_task [("title", JVal.str "x")] "aaaaaaaa" "2025-01-01T00:00:00"
          initialTasks).2)).1 =
      Payload.created
        { id := "task-aaaaaaaa", title := JVal.str "x", description := JVal.str "",
          status := JVal.str "pending", priority := JVal.str "medium",
          created_at := "2025-01-02T00:00:00", due_date := JVal.null } "task-aaaaaaaa" ∧
    (alookup "task-aaaaaaaa"
        ((handle_create_task [("title", JVal.str "x")] "aaaaaaaa" "2025-01-01T00:00:00"
          initialTasks).2)).isSome = true := by
  decide

/-- C1 (amended): for every valid create (truthy title) the returned task
has status `pending`, and its id is distinct from every key of the prior
store whenever the generated id `task-<token>` is not already a key. -/
theorem c1_create_pending_and_fresh (s : Store) (p : Params) (uuidToken now : String)
    (htitle : pyTruthy (dget p "title") = true) :
    ∃ t2, (handle_create_task p uuidToken now s).1 = Payload.created t2 t2.id ∧
      t2.status = JVal.str "pending" ∧
      (alookup ("task-" ++ uuidToken) s = none → alookup t2.id s = none) := by
  have hneg : ¬(pyTruthy (dget p "title") = false) := by simp [htitle]
  unfold handle_create_task
  dsimp only
  rw [if_neg hneg]
  exact ⟨_, rfl, rfl, fun h => h⟩

/-- C1 witness: a concrete valid create against the seed store. -/
theorem c1_witness :
    ∃ t2, (handle_create_task [("title", JVal.str "Write spec")] "deadbeef" "T0"
        initialTasks).1 = Payload.created t2 t2.id ∧
      t2.status = JVal.str "pending" ∧
      (alookup ("task-" ++ "deadbeef") initialTasks = none →
        alookup t2.id initialTasks = none) :=
  c1_create_pending_and_fresh initialTasks [("title", JVal.str "Write spec")]
    "deadbeef" "T0" (by decide)

/-- C3: creating a task with a truthy title and immediately getting it by
the returned id yields exactly the task record that create returned, on
the store left by the create call. -/
theorem c3_create_then_get_roundtrip (s : Store) (p : Params) (uuidToken now : String)
    (htitle : pyTruthy (dget p "title") = true) :
    ∃ t2 tid, (handle_create_task p uuidToken now s).1 = Payload.created t2 tid ∧
      handle_get_task [("task_id", JVal.str tid)] (handle_create_task p uuidToken now s).2 =
        (Payload.task t2, (handle_create_task p uuidToken now s).2) := by
  have hneg : ¬(pyTruthy (dget p "title") = false) := by simp [htitle]
  unfold handle_create_task
  dsimp only
  rw [if_neg hneg]
  refine ⟨_, "task-" ++ uuidToken, rfl, ?_⟩
  have htr : ¬(pyTruthy (dget [("task_id", JVal.str ("task-" ++ uuidToken))] "task_id")
      = false) := by
    rw [dget_singleton]
    simp [pyTruthy, task_prefix_ne_empty uuidToken]
  unfold handle_get_task
  dsimp only
  rw [if_neg htr, dget_singleton]
  simp only [vlookup, alookup_aset_self]

/-- C3 witness: the spec's create scenario followed by a get. -/
theorem c3_witness :
    ∃ t2 tid, (handle_create_task [("title", JVal.str "Write spec")] "aaaaaaaa" "T0"
        initialTasks).1 = Payload.created t2 tid ∧
      handle_get_task [("task_id", JVal.str tid)]
          (handle_create_task [("title", JVal.str "Write spec")] "aaaaaaaa" "T0"
            initialTasks).2 =
        (Payload.task t2,
         (handle_create_task [("title", JVal.str "Write spec")] "aaaaaaaa" "T0"
           initialTasks).2) :=
  c3_create_then_get_roundtrip initialTasks [("title", JVal.str "Write spec")]
    "aaaaaaaa" "T0" (by decide)

/-- C2: updating a stored task never changes its `id` or `created_at`, and
two update parameter bags that agree on `task_id` and the five recognized
fields produce the same result — keys outside that set cause no change to
the record and no error. -/
theorem c2_update_preserves_identity (s : Store) (p : Params) (k : String) (t : Task)
    (hp : alookup "task_id" p = some (JVal.str k))
    (ht : alookup k s = some t) :
    (∃ t2, alookup k (handle_update_task p s).2 = some t2 ∧
      t2.id = t.id ∧ t2.created_at = t.created_at) ∧
    (∀ p2 : Params,
      alookup "task_id" p2 = alookup "task_id" p →
      alookup "title" p2 = alookup "title" p →
      alookup "description" p2 = alookup "description" p →
      alookup "status" p2 = alookup "status" p →
      alookup "priority" p2 = alookup "priority" p →
      alookup "due_date" p2 = alookup "due_date" p →
      handle_update_task p2 s = handle_update_task p s) := by
  have hd : dget p "task_id" = JVal.str k := by rw [dget, hp]; rfl
  constructor
  · by_cases hk : k = ""
    · subst hk
      have hf : pyTruthy (dget p "task_id") = false := by rw [hd]; rfl
      unfold handle_update_task
      dsimp only
      rw [if_pos hf]
      exact ⟨t, ht, rfl, rfl⟩
    · have htr : ¬(pyTruthy (dget p "task_id") = false) := by
        rw [hd]
        simp [pyTruthy, hk]
      unfold handle_update_task
      dsimp only
      rw [if_neg htr, hd]
      simp only [vlookup, ht]
      refine ⟨applyUpdates t p, ?_, applyUpdates_id t p, applyUpdates_created_at t p⟩
      simp only [vset]
      exact alookup_aset_self k _ s
  · intro p2 h0 h1 h2 h3 h4 h5
    unfold handle_update_task applyUpdates dget
    rw [h0, h1, h2, h3, h4, h5]

/-- C2 witness: an update of a seed task through a bag with an unrecognized
key. -/
theorem c2_witness :
    (∃ t2, alookup "task-001"
        (handle_update_task [("task_id", JVal.str "task-001"), ("bogus", JVal.int 3)]
          initialTasks).2 = some t2 ∧
      t2.id = "task-001" ∧
      t2.created_at = "2025-04-24T12:00:00Z") ∧
    (∀ p2 : Params,
      alookup "task_id" p2 =
        alookup "task_id" [("task_id", JVal.str "task-001"), ("bogus", JVal.int 3)] →
      alookup "title" p2 =
        alookup "title" [("task_id", JVal.str "task-001"), ("bogus", JVal.int 3)] →
      alookup "description" p2 =
        alookup "description" [("task_id", JVal.str "task-001"), ("bogus", JVal.int 3)] →
      alookup "status" p2 =
        alookup "status" [("task_id", JVal.str "task-001"), ("bogus", JVal.int 3)] →
      alookup "priority" p2 =
        alookup "priority" [("task_id", JVal.str "task-001"), ("bogus", JVal.int 3)] →
      alookup "due_date" p2 =
        alookup "due_date" [("task_id", JVal.str "task-001"), ("bogus", JVal.int 3)] →
      handle_update_task p2 initialTasks =
        handle_update_task [("task_id", JVal.str "task-001"), ("bogus", JVal.int 3)]
          initialTasks) :=
  c2_update_preserves_identity initialTasks
    [("task_id", JVal.str "task-001"), ("bogus", JVal.int 3)] "task-001"
    { id := "task-001", title := JVal.str "Implement MCP server",
      description := JVal.str "Create a working MCP server implementation",
      status := JVal.str "in_progress", priority := JVal.str "high",
      created_at := "2025-04-24T12:00:00Z",
      due_date := JVal.str "2025-04-26T12:00:00Z" } (by decide) (by decide)

/-- C4 counterexample: the empty string is a `task_id` that is not present
in the store, yet the delete handler reports the missing-parameter error
(Python truthiness makes `""` indistinguishable from an absent key), not
the not-found error the claim promises for every absent id. -/
theorem c4_counterexample :
    (alookup "" initialTasks).isNone = true ∧
    handle_delete_task [("task_id", JVal.str "")] initialTasks =
      (Payload.err "task_id parameter is required", initialTasks) ∧
    Payload.err "task_id parameter is required" ≠
      Payload.err "Task with ID  not found" := by
  decide

/-- C4 (amended): for every truthy `task_id` value not present in the
store, deletion returns the not-found error payload and leaves the store
unchanged; consequently (for a store without duplicate keys, as a Python
dict is) deleting a stored, non-empty id twice yields that not-found error
on the second call, and a get of the just-deleted id yields the same
not-found error. -/
theorem c4_delete_missing_not_found (s : Store) (p : Params) (v : JVal)
    (hok : StoreOk s)
    (hv : dget p "task_id" = v)
    (htr : pyTruthy v = true)
    (hmiss : vlookup s v = none) :
    handle_delete_task p s =
      (Payload.err ("Task with ID " ++ pyStr v ++ " not found"), s) ∧
    (∀ k t, alookup k s = some t → k ≠ "" →
      handle_delete_task [("task_id", JVal.str k)]
          (handle_delete_task [("task_id", JVal.str k)] s).2 =
        (Payload.err ("Task with ID " ++ k ++ " not found"),
         (handle_delete_task [("task_id", JVal.str k)] s).2) ∧
      handle_get_task [("task_id", JVal.str k)]
          (handle_delete_task [("task_id", JVal.str k)] s).2 =
        (Payload.err ("Task with ID " ++ k ++ " not found"),
         (handle_delete_task [("task_id", JVal.str k)] s).2)) := by
  constructor
  · have hneg : ¬(pyTruthy (dget p "task_id") = false) := by rw [hv]; simp [htr]
    unfold handle_delete_task
    dsimp only
    rw [if_neg hneg, hv, hmiss]
  · intro k t hkt hkne
    have hdg : dget [("task_id", JVal.str k)] "task_id" = JVal.str k := dget_singleton _ _
    have hneg : ¬(pyTruthy (dget [("task_id", JVal.str k)] "task_id") = false) := by
      rw [hdg]
      simp [pyTruthy, hkne]
    have h1 : handle_delete_task [("task_id", JVal.str k)] s =
        (Payload.deleted t, apop k s) := by
      unfold handle_delete_task
      dsimp only
      rw [if_neg hneg, hdg]
      simp only [vlookup, hkt, vpop]
    rw [h1]
    dsimp only
    have h2 : alookup k (apop k s) = none := alookup_apop_self hok
    constructor
    · unfold handle_delete_task
      dsimp only
      rw [if_neg hneg, hdg]
      simp only [vlookup, h2]
      rfl
    · unfold handle_get_task
      dsimp only
      rw [if_neg hneg, hdg]
      simp only [vlookup, h2]
      rfl

/-- C4 witness: deleting an absent id on the seed store, with the
delete-twice and get-after-delete consequences at `task-001`. -/
theorem c4_witness :
    (handle_delete_task [("task_id", JVal.str "task-zzz")] initialTasks =
      (Payload.err "Task with ID task-zzz not found", initialTasks)) ∧
    (handle_delete_task [("task_id", JVal.str "task-001")]
        (handle_delete_task [("task_id", JVal.str "task-001")] initialTasks).2 =
      (Payload.err "Task with ID task-001 not found",
       (handle_delete_task [("task_id", JVal.str "task-001")] initialTasks).2) ∧
     handle_get_task [("task_id", JVal.str "task-001")]
        (handle_delete_task [("task_id", JVal.str "task-001")] initialTasks).2 =
      (Payload.err "Task with ID task-001 not found",
       (handle_delete_task [("task_id", JVal.str "task-001")] initialTasks).2)) := by
  have h := c4_delete_missing_not_found initialTasks
    [("task_id", JVal.str "task-zzz")] (JVal.str "task-zzz")
    (by decide) (by decide) (by decide) (by decide)
  exact ⟨h.1, h.2 "task-001"
    { id := "task-001", title := JVal.str "Implement MCP server",
      description := JVal.str "Create a working MCP server implementation",
      status := JVal.str "in_progress", priority := JVal.str "high",
      created_at := "2025-04-24T12:00:00Z",
      due_date := JVal.str "2025-04-26T12:00:00Z" } (by decide) (by decide)⟩

/-- C6: for authenticated requests the HTTP status is always 200 with no
auth challenge, and each logical error category — malformed JSON body,
unsupported function name, missing required parameter, entity not found,
and an exception raised inside a handler — is returned as the uniform
error-object body. -/
theorem c6_logical_errors_status_200 (function_name : String) (body : ReqBody)
    (uuidToken now : String) (s : Store) :
    (handle_mcp_request USERNAME PASSWORD function_name body uuidToken now s).1.status
      = 200 ∧
    (handle_mcp_request USERNAME PASSWORD function_name body uuidToken now s).1.wwwAuthenticate
      = none ∧
    (body = ReqBody.malformed →
      (handle_mcp_request USERNAME PASSWORD function_name body uuidToken now s).1.body
        = Payload.err "Invalid JSON in request body") ∧
    (∀ tn, body = ReqBody.nonDict tn → function_name ∉ handlerNames →
      (handle_mcp_request USERNAME PASSWORD function_name body uuidToken now s).1.body
        = Payload.err ("Function " ++ function_name ++ " not supported")) ∧
    (∀ ps, body = ReqBody.obj ps → function_name ∉ handlerNames →
      (handle_mcp_request USERNAME PASSWORD function_name body uuidToken now s).1.body
        = Payload.err ("Function " ++ function_name ++ " not supported")) ∧
    (∀ tn, body = ReqBody.nonDict tn →
      function_name ∈ ["get_task", "create_task", "update_task", "delete_task"] →
      (handle_mcp_request USERNAME PASSWORD function_name body uuidToken now s).1.body
        = Payload.err ("'" ++ tn ++ "' object has no attribute 'get'")) ∧
    (∀ ps, body = ReqBody.obj ps → function_name = "get_task" →
      pyTruthy (dget ps "task_id") = false →
      (handle_mcp_request USERNAME PASSWORD function_name body uuidToken now s).1.body
        = Payload.err "task_id parameter is required") ∧
    (∀ ps, body = ReqBody.obj ps → function_name = "get_task" →
      pyTruthy (dget ps "task_id") = true → vlookup s (dget ps "task_id") = none →
      (handle_mcp_request USERNAME PASSWORD function_name body uuidToken now s).1.body
        = Payload.err ("Task with ID " ++ pyStr (dget ps "task_id") ++ " not found")) := by
  have hm : handle_mcp_request USERNAME PASSWORD function_name body uuidToken now s =
      ({ status := 200, wwwAuthenticate := none,
         body := (dispatch function_name body uuidToken now s).1 },
       (dispatch function_name body uuidToken now s).2) := rfl
  rw [hm]
  refine ⟨rfl, rfl, ?_, ?_, ?_, ?_, ?_, ?_⟩
  · intro hb
    subst hb
    rfl
  · intro tn hb hns
    subst hb
    unfold dispatch
    dsimp only
    rw [if_neg hns]
  · intro ps hb hns
    subst hb
    unfold dispatch
    dsimp only
    rw [if_neg hns]
  · intro tn hb hmem
    subst hb
    simp only [List.mem_cons] at hmem
    rcases hmem with rfl | rfl | rfl | rfl | h
    · rfl
    · rfl
    · rfl
    · rfl
    · simp at h
  · intro ps hb hfn hfalse
    subst hb
    subst hfn
    have hd : dispatch "get_task" (ReqBody.obj ps) uuidToken now s =
        handle_get_task ps s := rfl
    rw [hd]
    unfold handle_get_task
    dsimp only
    rw [if_pos hfalse]
  · intro ps hb hfn htrue hnone
    subst hb
    subst hfn
    have hd : dispatch "get_task" (ReqBody.obj ps) uuidToken now s =
        handle_get_task ps s := rfl
    rw [hd]
    have hneg : ¬(pyTruthy (dget ps "task_id") = false) := by simp [htrue]
    unfold handle_get_task
    dsimp only
    rw [if_neg hneg, hnone]

/-- C6 witness: the spec scenario of a get without `task_id`. -/
theorem c6_witness :
    (handle_mcp_request USERNAME PASSWORD "get_task" (ReqBody.obj []) "u" "n"
        initialTasks).1.body = Payload.err "task_id parameter is required" :=
  (c6_logical_errors_status_200 "get_task" (ReqBody.obj []) "u" "n"
    initialTasks).2.2.2.2.2.2.1 [] rfl rfl (by decide)

end TaskMaster
